import Mathlib

/-!
Shallow embedding of the module deployment reconciliation and lifecycle
orchestration core of the Spandak8s backend (src/backend/hybrid_main.py).

Subprocess invocations (kubectl / helm via WSL) are modelled as functions
supplied by the environment: a call either raises a Python exception
(`Except.error msg`, e.g. `subprocess.TimeoutExpired`) or returns a process
result carrying the exit code and parsed stdout.  All control flow after the
subprocess returns is translated directly from the Python source.
-/

/-- Workload kinds queried by the status reader (hybrid_main.py lines 618-646):
Deployments and StatefulSets. -/
inductive Kind where
  | sts
  | dep
deriving DecidableEq

/-- Result of a completed `kubectl get ... -o name` subprocess: exit code and
stdout lines (stdout is split on newlines by the Python code). -/
structure ProcResult where
  returncode : Int
  stdout : List String
deriving DecidableEq

/-- Result of a completed `kubectl get ... -o custom-columns='READY,DESIRED'`
subprocess: exit code and the whitespace-separated tokens of each stdout line
(Python `line.strip().split()`; a blank line yields no tokens). -/
structure ReplicaProc where
  returncode : Int
  rows : List (List String)
deriving DecidableEq

/-- The live cluster as seen through kubectl subprocesses.  `getNames` models
`kubectl get <kind> -n ns -l sel -o name` and `replicaQuery` models the batched
replica-status query over a list of workload names.  `Except.error` models a
raised Python exception (e.g. a subprocess timeout); `Except.ok` models a
completed subprocess of any exit code. -/
structure Cluster where
  getNames : Kind → String → String → Except String ProcResult
  replicaQuery : Kind → String → List String → Except String ReplicaProc

/-- Occurrence of a character sequence inside another, structurally over the
character list. -/
def containsSub (needle : List Char) : List Char → Bool
  | [] => needle.isEmpty
  | c :: rest => needle.isPrefixOf (c :: rest) || containsSub needle rest

/-- Python `needle in hay` on strings: the needle occurs as a contiguous
substring (the empty needle always does). -/
def pyIn (needle hay : String) : Bool :=
  containsSub needle.data hay.data

/-- Python `s.strip()`: leading and trailing whitespace removed. -/
def pyStrip (s : String) : String :=
  String.mk (((s.data.dropWhile Char.isWhitespace).reverse.dropWhile Char.isWhitespace).reverse)

/-- Python `c.lower()` on one ASCII character. -/
def pyCharLower (c : Char) : Char :=
  if 'A' ≤ c ∧ c ≤ 'Z' then Char.ofNat (c.toNat + 32) else c

/-- Python `s.lower()`. -/
def pyLower (s : String) : String :=
  String.mk (s.data.map pyCharLower)

/-- Python `int(s) if s.isdigit() else 0` (hybrid_main.py lines 676-677):
`str.isdigit` requires a nonempty all-digit string. -/
def pyDigitVal (s : String) : Nat :=
  if s != "" && s.data.all Char.isDigit then
    s.data.foldl (fun n c => 10 * n + (c.toNat - '0'.toNat)) 0
  else 0

/-- Python truthiness of `result.stdout.strip()`: some line has a nonempty
strip. -/
def stdout_nonempty (r : ProcResult) : Bool :=
  r.stdout.any (fun l => pyStrip l != "")

/-- Python `s.split(sep)[-1]`: the segment after the last separator
occurrence (the whole string when the separator is absent). -/
def last_component (sep : Char) : List Char → List Char → List Char
  | acc, [] => acc
  | acc, c :: rest =>
    if c == sep then last_component sep [] rest
    else last_component sep (acc ++ [c]) rest

/-- Workload names extracted from a `-o name` listing (hybrid_main.py line 625):
`[s.split('/')[-1] for s in result.stdout.strip().split('\n') if s.strip()]`. -/
def proc_names (r : ProcResult) : List String :=
  (r.stdout.filter (fun s => pyStrip s != "")).map
    (fun s => String.mk (last_component '/' [] s.data))

/-- Candidate label selectors probed for a module (hybrid_main.py lines
590-613), in source order: generic data-lake and module labels, then
spark-specific service labels, then security-vault Helm-instance labels. -/
def label_selectors (ns mod : String) : List String :=
  (["spanda.ai/module=data-lake-baremetal",
    "spanda.ai/module=" ++ mod,
    "service=" ++ mod,
    "component=data-lake"]
   ++ (if mod = "spark" then
         ["service=spark-master", "service=spark-notebook", "service=spark-worker"]
       else [])
   ++ (if mod = "security-vault" then
         ["app.kubernetes.io/instance=" ++ ns ++ "-" ++ mod,
          "app.kubernetes.io/component=vault-server"]
       else []))

/-- One iteration of the selector loop (hybrid_main.py lines 618-633): query
StatefulSets then Deployments for one selector, appending names when the
subprocess exited 0 with nonempty stdout. -/
def collect_for_selector (c : Cluster) (ns sel : String)
    (acc : List String × List String) : Except String (List String × List String) :=
  match c.getNames Kind.sts ns sel with
  | Except.error e => Except.error e
  | Except.ok r =>
    let acc1 := if r.returncode = 0 ∧ stdout_nonempty r then (acc.1 ++ proc_names r, acc.2) else acc
    match c.getNames Kind.dep ns sel with
    | Except.error e => Except.error e
    | Except.ok r2 =>
      Except.ok (if r2.returncode = 0 ∧ stdout_nonempty r2
                 then (acc1.1, acc1.2 ++ proc_names r2) else acc1)

/-- The selector loop folded over all candidate selectors; a raised exception
aborts the whole check (outer try/except of hybrid_main.py line 588). -/
def collect_selectors (c : Cluster) (ns : String) :
    List String → List String × List String → Except String (List String × List String)
  | [], acc => Except.ok acc
  | sel :: rest, acc =>
    match collect_for_selector c ns sel acc with
    | Except.error e => Except.error e
    | Except.ok acc2 => collect_selectors c ns rest acc2

/-- Full name collection (hybrid_main.py lines 615-646): the selector loop,
then the broader `component=data-lake` Deployment search filtered by module
name substring. -/
def collect_found (c : Cluster) (ns mod : String) :
    Except String (List String × List String) :=
  match collect_selectors c ns (label_selectors ns mod) ([], []) with
  | Except.error e => Except.error e
  | Except.ok acc =>
    match c.getNames Kind.dep ns "component=data-lake" with
    | Except.error e => Except.error e
    | Except.ok r =>
      if r.returncode = 0 ∧ stdout_nonempty r then
        Except.ok (acc.1, acc.2 ++ (proc_names r).filter (fun dep =>
          pyIn mod (pyLower dep) || ([mod, mod ++ "-"].any (fun kw => pyIn kw (pyLower dep)))))
      else Except.ok acc

/-- Per-row ready count (hybrid_main.py lines 672-679): rows with fewer than
two tokens are skipped. -/
def row_ready (parts : List String) : Nat :=
  if 2 ≤ parts.length then pyDigitVal (parts.getD 0 "") else 0

/-- Per-row desired count (hybrid_main.py lines 672-679). -/
def row_desired (parts : List String) : Nat :=
  if 2 ≤ parts.length then pyDigitVal (parts.getD 1 "") else 0

/-- Summation of the replica-status rows: first component is the ready sum,
second the desired sum (hybrid_main.py lines 672-679 accumulate
`ready_replicas` and `total_replicas`). -/
def sum_rows (rows : List (List String)) : Nat × Nat :=
  rows.foldl (fun acc parts => (acc.1 + row_ready parts, acc.2 + row_desired parts)) (0, 0)

/-- Replica sums for one workload kind (hybrid_main.py lines 664-701): no
query when no names were found; a completed query contributes only when it
exited 0 with nonempty output. -/
def query_sums (c : Cluster) (k : Kind) (ns : String) (names : List String) :
    Except String (Nat × Nat) :=
  if names = [] then Except.ok (0, 0)
  else
    match c.replicaQuery k ns names with
    | Except.error e => Except.error e
    | Except.ok r =>
      if r.returncode = 0 ∧ r.rows ≠ [] then Except.ok (sum_rows r.rows) else Except.ok (0, 0)

/-- General status derivation (hybrid_main.py lines 713-719): failed when no
replica is ready, running when ready equals desired, degraded otherwise. -/
def derive_status_general (total ready : Nat) : String :=
  if ready = 0 then "failed"
  else if ready = total then "running"
  else "degraded"

/-- Security-vault status derivation (hybrid_main.py lines 704-711): running
when desired is positive and ready has reached it, failed when none ready,
degraded otherwise. -/
def derive_status_vault (total ready : Nat) : String :=
  if 0 < total ∧ total ≤ ready then "running"
  else if ready = 0 then "failed"
  else "degraded"

/-- Kubernetes-API-path status derivation (hybrid_main.py lines 828-832). -/
def derive_status_api (total ready : Nat) : String :=
  if ready = 0 then "failed"
  else if ready < total then "degraded"
  else "running"

/-- Status selection in the kubectl path (hybrid_main.py lines 703-719): the
vault-specific branch applies only for security-vault with StatefulSets
found. -/
def kubectl_status (mod : String) (sts_found : List String) (total ready : Nat) : String :=
  if mod = "security-vault" ∧ sts_found ≠ [] then derive_status_vault total ready
  else derive_status_general total ready

/-- Consolidated per-module status record, mirroring the dict returned by
`is_module_deployed_via_kubectl` / `is_module_deployed`.  Fields absent from a
given Python return dict are zero/empty here. -/
structure DeployStatus where
  deployed : Bool
  status : String
  desired : Nat
  ready : Nat
  statefulsets : List String
  deployments : List String
  error : Option String
deriving DecidableEq

/-- The `not_deployed` return dict (hybrid_main.py lines 732-735). -/
def notDeployedStatus : DeployStatus :=
  { deployed := false, status := "not_deployed", desired := 0, ready := 0,
    statefulsets := [], deployments := [], error := none }

/-- The `unknown` return dict with the caught exception text attached
(hybrid_main.py lines 739-743). -/
def unknownStatus (e : String) : DeployStatus :=
  { deployed := false, status := "unknown", desired := 0, ready := 0,
    statefulsets := [], deployments := [], error := some e }

/-- Body of `is_module_deployed_via_kubectl` after name collection
(hybrid_main.py lines 648-735): de-duplicate names, apply the vault
StatefulSet filter, then either report not-deployed or sum replicas and derive
the status. -/
def kubectl_after_collect (c : Cluster) (ns mod : String)
    (sts_raw dep_raw : List String) : Except String DeployStatus :=
  let sts1 := sts_raw.dedup
  let dep1 := dep_raw.dedup
  let sts2 := if mod = "security-vault"
              then sts1.filter (fun s => pyIn "vault" (pyLower s)) else sts1
  if sts2 ≠ [] ∨ dep1 ≠ [] then
    match query_sums c Kind.sts ns sts2 with
    | Except.error e => Except.error e
    | Except.ok p =>
      match query_sums c Kind.dep ns dep1 with
      | Except.error e => Except.error e
      | Except.ok q =>
        Except.ok
          { deployed := true,
            status := kubectl_status mod sts2 (p.2 + q.2) (p.1 + q.1),
            desired := p.2 + q.2, ready := p.1 + q.1,
            statefulsets := sts2, deployments := dep1, error := none }
  else Except.ok notDeployedStatus

/-- The try-block of `is_module_deployed_via_kubectl` (hybrid_main.py lines
588-735). -/
def kubectl_classify (c : Cluster) (ns mod : String) : Except String DeployStatus :=
  match collect_found c ns mod with
  | Except.error e => Except.error e
  | Except.ok acc => kubectl_after_collect c ns mod acc.1 acc.2

/-- `is_module_deployed_via_kubectl` (hybrid_main.py lines 584-743): a raised
exception is caught and reported as status `unknown` with the error text. -/
def is_module_deployed_via_kubectl (c : Cluster) (ns mod : String) : DeployStatus :=
  match kubectl_classify c ns mod with
  | Except.ok st => st
  | Except.error e => unknownStatus e

/-- A Deployment or StatefulSet as returned by the Kubernetes Python API:
name plus optional replica counts (hybrid_main.py lines 820-826 read
`status.replicas or 0` and `status.ready_replicas or 0`). -/
structure Workload where
  name : String
  replicas : Option Nat
  ready_replicas : Option Nat
deriving DecidableEq

/-- The Kubernetes Python API clients (`k8s_apps`); `available = false` models
`k8s_core is None or k8s_apps is None` (hybrid_main.py line 754). -/
structure ApiCluster where
  available : Bool
  listDeployments : String → String → Except String (List Workload)
  listStatefulSets : String → String → Except String (List Workload)

/-- `module_label_mapping` (hybrid_main.py lines 762-770), with the default
`[module_name]` for unmapped modules. -/
def module_label_mapping (mod : String) : List String :=
  if mod = "minio" then ["data-lake-baremetal", "minio"]
  else if mod = "spark" then ["data-lake-baremetal", "spark"]
  else if mod = "dremio" then ["data-lake-baremetal", "dremio"]
  else if mod = "security-vault" then ["security-vault", "keyholding", "primary", "vault"]
  else [mod]

/-- The per-label collection loop of the API fallback (hybrid_main.py lines
776-807): query the `spanda.ai/module` label, and when it matched nothing also
the `service={module_name}` label. -/
def api_collect (list : String → String → Except String (List Workload))
    (ns mod : String) : List String → List Workload → Except String (List Workload)
  | [], acc => Except.ok acc
  | label :: rest, acc =>
    match list ns ("spanda.ai/module=" ++ label) with
    | Except.error e => Except.error e
    | Except.ok items =>
      if items.length = 0 then
        match list ns ("service=" ++ mod) with
        | Except.error e => Except.error e
        | Except.ok items2 => api_collect list ns mod rest (acc ++ items ++ items2)
      else api_collect list ns mod rest (acc ++ items)

/-- Python dict-comprehension keyed by name (hybrid_main.py lines 810-811):
first-insertion key order, last value wins. -/
def upsert (m : List (String × Workload)) (w : Workload) : List (String × Workload) :=
  if m.any (fun p => p.1 == w.name) then
    m.map (fun p => if p.1 == w.name then (p.1, w) else p)
  else m ++ [(w.name, w)]

/-- De-duplication by workload name (hybrid_main.py lines 810-811):
`{x.metadata.name: x for x in xs}.values()`. -/
def dedupByName (ws : List Workload) : List Workload :=
  (ws.foldl upsert []).map Prod.snd

/-- Replica sums over the de-duplicated workloads (hybrid_main.py lines
817-826): first component ready, second desired. -/
def api_sums (ws : List Workload) : Nat × Nat :=
  ws.foldl (fun acc w => (acc.1 + w.ready_replicas.getD 0, acc.2 + w.replicas.getD 0)) (0, 0)

/-- The API-fallback body of `is_module_deployed` (hybrid_main.py lines
761-846).  The Python return dicts of this path carry no workload-name lists,
hence the empty lists here. -/
def api_check (api : ApiCluster) (ns mod : String) : Except String DeployStatus :=
  match api_collect api.listDeployments ns mod (module_label_mapping mod) [] with
  | Except.error e => Except.error e
  | Except.ok deployments =>
    match api_collect api.listStatefulSets ns mod (module_label_mapping mod) [] with
    | Except.error e => Except.error e
    | Except.ok statefulsets =>
      let ud := dedupByName deployments
      let us := dedupByName statefulsets
      if ud ≠ [] ∨ us ≠ [] then
        Except.ok
          { deployed := true,
            status := derive_status_api (api_sums (ud ++ us)).2 (api_sums (ud ++ us)).1,
            desired := (api_sums (ud ++ us)).2, ready := (api_sums (ud ++ us)).1,
            statefulsets := [], deployments := [], error := none }
      else Except.ok notDeployedStatus

/-- `is_module_deployed` (hybrid_main.py lines 745-854): the kubectl result is
returned unless it reports `unknown` without being deployed, in which case the
Kubernetes API fallback runs; an unavailable API or a raised API exception
yields `unknown` with the error attached. -/
def is_module_deployed (c : Cluster) (api : ApiCluster) (ns mod : String) : DeployStatus :=
  let k := is_module_deployed_via_kubectl c ns mod
  if k.deployed = true ∨ k.status ≠ "unknown" then k
  else if api.available = false then unknownStatus "Kubernetes API not available"
  else
    match api_check api ns mod with
    | Except.ok st => st
    | Except.error e => unknownStatus e

/-- Result of a release-manager (helm) subprocess: a raised
`subprocess.TimeoutExpired`, or a completed run with exit code, stdout and
stderr. -/
inductive HelmOutcome where
  | timeout
  | ran (returncode : Int) (stdout stderr : String)
deriving DecidableEq

/-- An HTTPException as raised by the backend: status code and detail text. -/
structure HTTPErr where
  status_code : Nat
  detail : String
deriving DecidableEq

/-- Starlette renders `str(HTTPException)` as "status_code: detail"; the
generic `except Exception` handlers embed that text in their own detail. -/
def str_of_http (e : HTTPErr) : String :=
  toString e.status_code ++ ": " ++ e.detail

/-- Auxiliary-resource classes removed by the optional cleanup of
`undeploy_module_with_helm` (hybrid_main.py lines 1005-1142). -/
inductive CleanupAction where
  | pvcs
  | secrets
  | configmaps
  | serviceaccounts
  | roles
  | rolebindings
  | networkpolicies
  | ingresses
  | customResource (crd : String)
  | jobs
deriving DecidableEq

/-- Custom-resource kinds probed by the complete cleanup (hybrid_main.py lines
1082-1090). -/
def common_crds : List String :=
  ["kafkas.kafka.strimzi.io",
   "kafkatopics.kafka.strimzi.io",
   "kafkausers.kafka.strimzi.io",
   "vaults.vault.security.coreos.com",
   "vaultpolicies.vault.security.coreos.com",
   "certificates.cert-manager.io",
   "issuers.cert-manager.io"]

/-- Name patterns selecting cleanup victims (hybrid_main.py lines 1012 and
1029): the module name plus the fixed co-resident names, as the grep -E
alternation "(module|vault|minio|dremio|spark|kafka)". -/
def module_patterns (mod : String) : List String :=
  [mod, "vault", "minio", "dremio", "spark", "kafka"]

/-- Cleanup actions executed after a successful helm uninstall, in source
order (hybrid_main.py lines 1005-1142): PVCs when `cleanup_pvcs`; with
`cleanup_all` the secret/configmap/serviceaccount/role/rolebinding/
networkpolicy/ingress tasks, PVCs when not already cleaned, and the custom
resources; and always the trailing job cleanup. -/
def cleanup_actions (cleanup_pvcs cleanup_all : Bool) : List CleanupAction :=
  (if cleanup_pvcs then [CleanupAction.pvcs] else [])
  ++ (if cleanup_all then
        [CleanupAction.secrets, CleanupAction.configmaps, CleanupAction.serviceaccounts,
         CleanupAction.roles, CleanupAction.rolebindings, CleanupAction.networkpolicies,
         CleanupAction.ingresses]
        ++ (if cleanup_pvcs then [] else [CleanupAction.pvcs])
        ++ common_crds.map CleanupAction.customResource
      else [])
  ++ [CleanupAction.jobs]

/-- Observable side effects of the orchestrator: the pre-install job deletion,
the helm invocations, the grep-pattern resource deletions, and the
release-instance-labelled job deletion. -/
inductive Effect where
  | deleteJob (name nsName : String)
  | helmInstall (release nsName : String)
  | helmUninstall (release nsName : String)
  | cleanupPattern (a : CleanupAction) (patterns : List String) (nsName : String)
  | cleanupJobsByInstance (release nsName : String)
deriving DecidableEq

/-- Effect of one cleanup action (hybrid_main.py lines 1005-1142): every grep
command uses the module pattern list; the trailing job cleanup selects by the
release instance label instead. -/
def effect_of_action (mod ns release : String) : CleanupAction → Effect
  | CleanupAction.jobs => Effect.cleanupJobsByInstance release ns
  | a => Effect.cleanupPattern a (module_patterns mod) ns

/-- Success payload of `deploy_module_with_helm` (hybrid_main.py lines
943-949). -/
structure DeployOk where
  release_name : String
  nsName : String
  output : String
deriving DecidableEq

/-- `deploy_module_with_helm` (hybrid_main.py lines 856-963), from the command
execution onward: values-file and command construction (lines 861-918) only
format the subprocess invocation and are elided; the tenant context parameters
`environment` and `tenant_tier` feed only that command string.  A pre-install
job cleanup always runs first (lines 922-932, errors ignored).  A subprocess
timeout raises 408; a non-zero exit raises 500 whose detail carries stderr,
re-wrapped by the generic `except Exception` handler (lines 959-963). -/
def deploy_module_with_helm (helm : HelmOutcome) (mod ns environment tenant_tier : String) :
    Except HTTPErr DeployOk × List Effect :=
  let release_name := ns ++ "-" ++ mod
  let effs := [Effect.deleteJob "data-lake-init" ns, Effect.helmInstall release_name ns]
  match helm with
  | HelmOutcome.timeout =>
      (Except.error { status_code := 408, detail := "Module deployment timed out" }, effs)
  | HelmOutcome.ran rc out err =>
      if rc ≠ 0 then
        (Except.error
          { status_code := 500,
            detail := "Deployment failed: " ++
              str_of_http { status_code := 500, detail := "Module deployment failed: " ++ err } },
         effs)
      else
        (Except.ok { release_name := release_name, nsName := ns, output := out }, effs)

/-- Success payload of `undeploy_module_with_helm` (hybrid_main.py lines
1144-1153). -/
structure UndeployOk where
  release_name : String
  nsName : String
  output : String
  pvcs_cleaned : Bool
  complete_cleanup : Bool
deriving DecidableEq

/-- `undeploy_module_with_helm` (hybrid_main.py lines 965-1159): helm
uninstall first; a timeout raises 408; any non-zero exit raises 500 carrying
stderr, re-wrapped by the generic handler (lines 1155-1159); on exit 0 the
cleanup actions run in order (per-action subprocess failures are caught and
recorded, lines 1015-1022 and 1112-1130, so every action is attempted). -/
def undeploy_module_with_helm (helm : HelmOutcome) (mod ns : String)
    (cleanup_pvcs cleanup_all : Bool) : Except HTTPErr UndeployOk × List Effect :=
  let release_name := ns ++ "-" ++ mod
  match helm with
  | HelmOutcome.timeout =>
      (Except.error { status_code := 408, detail := "Module undeployment timed out" },
       [Effect.helmUninstall release_name ns])
  | HelmOutcome.ran rc out err =>
      if rc ≠ 0 then
        (Except.error
          { status_code := 500,
            detail := "Undeployment failed: " ++
              str_of_http { status_code := 500, detail := "Module undeployment failed: " ++ err } },
         [Effect.helmUninstall release_name ns])
      else
        (Except.ok { release_name := release_name, nsName := ns, output := out,
                     pvcs_cleaned := cleanup_pvcs, complete_cleanup := cleanup_all },
         Effect.helmUninstall release_name ns ::
           (cleanup_actions cleanup_pvcs cleanup_all).map (effect_of_action mod ns release_name))

/-- Success payload of the enable endpoint (hybrid_main.py lines 1185-1190 and
1206-1215). -/
structure EnableOk where
  message : String
  deployment : Option DeployOk
  status : DeployStatus
  nsName : String
deriving DecidableEq

/-- Default `environment` of the enable endpoint (hybrid_main.py line 1166). -/
def enable_default_environment : String := "dev"

/-- Default `tier` of the enable endpoint (hybrid_main.py line 1167). -/
def enable_default_tier : String := "bronze"

/-- `enable_module` (hybrid_main.py lines 1162-1219): validate the module
against the catalog, pre-check the deployment status, return immediately when
already running, otherwise deploy and re-query the status after the settle
wait.  Raised HTTPExceptions are re-wrapped by the generic handler (lines
1217-1219).  The pre-check and the post-check read the live cluster at
different times, hence the two cluster/API arguments. -/
def enable_module (pre_c : Cluster) (pre_api : ApiCluster)
    (post_c : Cluster) (post_api : ApiCluster) (helm : HelmOutcome)
    (available_modules : List String)
    (tenant mod environment tier : String) : Except HTTPErr EnableOk × List Effect :=
  if mod ∉ available_modules then
    (Except.error
      { status_code := 500,
        detail := "Failed to enable module: " ++
          str_of_http { status_code := 404,
                        detail := "Module '" ++ mod ++ "' not found in definitions" } }, [])
  else if (is_module_deployed pre_c pre_api (tenant ++ "-" ++ environment) mod).deployed = true
          ∧ (is_module_deployed pre_c pre_api (tenant ++ "-" ++ environment) mod).status = "running" then
    (Except.ok
      { message := "Module '" ++ mod ++ "' is already running",
        deployment := none,
        status := is_module_deployed pre_c pre_api (tenant ++ "-" ++ environment) mod,
        nsName := tenant ++ "-" ++ environment }, [])
  else
    match deploy_module_with_helm helm mod (tenant ++ "-" ++ environment) environment tier with
    | (Except.error e, effs) =>
        (Except.error { status_code := 500,
                        detail := "Failed to enable module: " ++ str_of_http e }, effs)
    | (Except.ok d, effs) =>
        (Except.ok
          { message := "Module '" ++ mod ++ "' successfully enabled",
            deployment := some d,
            status := is_module_deployed post_c post_api (tenant ++ "-" ++ environment) mod,
            nsName := tenant ++ "-" ++ environment }, effs)

/-- Success payload of the disable endpoint (hybrid_main.py lines 1246-1251
and 1271-1281).  The early idempotent return dict carries neither an undeploy
result nor a status, hence the options. -/
structure DisableOk where
  message : String
  undeploy : Option UndeployOk
  status : Option DeployStatus
  nsName : String
  resource_cleanup_performed : Bool
deriving DecidableEq

/-- Default `environment` of the disable endpoint (hybrid_main.py line 1225). -/
def disable_default_environment : String := "dev"

/-- Default `cleanup_pvcs` of the disable endpoint (hybrid_main.py line 1226). -/
def disable_default_cleanup_pvcs : Bool := true

/-- Default `cleanup_all` of the disable endpoint (hybrid_main.py line 1227). -/
def disable_default_cleanup_all : Bool := false

/-- `disable_module` (hybrid_main.py lines 1221-1285): pre-check the
deployment status, return immediately when not deployed, otherwise undeploy
with the requested cleanup options and re-query the status.  Raised
HTTPExceptions are re-wrapped by the generic handler (lines 1283-1285). -/
def disable_module (pre_c : Cluster) (pre_api : ApiCluster)
    (post_c : Cluster) (post_api : ApiCluster) (helm : HelmOutcome)
    (tenant mod environment : String)
    (cleanup_pvcs cleanup_all : Bool) : Except HTTPErr DisableOk × List Effect :=
  if (is_module_deployed pre_c pre_api (tenant ++ "-" ++ environment) mod).deployed = false then
    (Except.ok
      { message := "Module '" ++ mod ++ "' is already not deployed",
        undeploy := none, status := none,
        nsName := tenant ++ "-" ++ environment,
        resource_cleanup_performed := false }, [])
  else
    match undeploy_module_with_helm helm mod (tenant ++ "-" ++ environment)
            cleanup_pvcs cleanup_all with
    | (Except.error e, effs) =>
        (Except.error { status_code := 500,
                        detail := "Failed to disable module: " ++ str_of_http e }, effs)
    | (Except.ok u, effs) =>
        (Except.ok
          { message := "Module '" ++ mod ++ "' successfully disabled",
            undeploy := some u,
            status := some (is_module_deployed post_c post_api (tenant ++ "-" ++ environment) mod),
            nsName := tenant ++ "-" ++ environment,
            resource_cleanup_performed := cleanup_pvcs || cleanup_all }, effs)

/-- A Kubernetes API stub for states where the kubectl path already decides
the status, and for the unavailable-API branch. -/
def apiNone : ApiCluster :=
  { available := false,
    listDeployments := fun _ _ => Except.error "Kubernetes API not available",
    listStatefulSets := fun _ _ => Except.error "Kubernetes API not available" }

/-- A cluster state in which every name query finds the workload `minio` and
every replica query reports two of two replicas ready. -/
def clusterRunning : Cluster :=
  { getNames := fun _ _ _ => Except.ok { returncode := 0, stdout := ["statefulset.apps/minio"] },
    replicaQuery := fun _ _ _ => Except.ok { returncode := 0, rows := [["2", "2"]] } }

/-- A cluster state in which every name query finds the workload `minio` and
every replica query reports one of three replicas ready. -/
def clusterDegraded : Cluster :=
  { getNames := fun _ _ _ => Except.ok { returncode := 0, stdout := ["statefulset.apps/minio"] },
    replicaQuery := fun _ _ _ => Except.ok { returncode := 0, rows := [["1", "3"]] } }

/-- A cluster state in which every query completes successfully with zero
matches. -/
def clusterEmpty : Cluster :=
  { getNames := fun _ _ _ => Except.ok { returncode := 0, stdout := [] },
    replicaQuery := fun _ _ _ => Except.ok { returncode := 0, rows := [] } }

/-- A cluster state in which every kubectl subprocess completes but exits 1
with empty output, as when the API server is unreachable. -/
def clusterOffline : Cluster :=
  { getNames := fun _ _ _ => Except.ok { returncode := 1, stdout := [] },
    replicaQuery := fun _ _ _ => Except.ok { returncode := 1, rows := [] } }

/-- A cluster state in which every kubectl subprocess raises, as when
`subprocess.run` times out. -/
def clusterExn : Cluster :=
  { getNames := fun _ _ _ => Except.error "Command timed out",
    replicaQuery := fun _ _ _ => Except.error "Command timed out" }

/-- The helm-uninstall stderr emitted when the release does not exist. -/
def notFoundStderr : String :=
  "Error: uninstall: Release not loaded: acme-dev-spark: release: not found"

/-- Folding the row summation from any accumulator adds the component sums. -/
theorem sum_rows_foldl (rows : List (List String)) : ∀ acc : Nat × Nat,
    rows.foldl (fun acc parts => (acc.1 + row_ready parts, acc.2 + row_desired parts)) acc =
      (acc.1 + (rows.map row_ready).sum, acc.2 + (rows.map row_desired).sum) := by
  induction rows with
  | nil => intro acc; simp
  | cons p rest ih =>
      intro acc
      simp only [List.foldl_cons, ih, List.map_cons, List.sum_cons, Prod.mk.injEq]
      omega

/-- The row summation equals the pair of mapped component sums. -/
theorem sum_rows_eq (rows : List (List String)) :
    sum_rows rows = ((rows.map row_ready).sum, (rows.map row_desired).sum) := by
  simp [sum_rows, sum_rows_foldl]

/-- Keys of the name-keyed dictionary after an upsert: unchanged when the key
was present, extended by the new name otherwise. -/
theorem upsert_keys (m : List (String × Workload)) (w : Workload) :
    (upsert m w).map Prod.fst =
      if m.any (fun p => p.1 == w.name) then m.map Prod.fst
      else m.map Prod.fst ++ [w.name] := by
  unfold upsert
  split
  · rw [List.map_map]
    refine List.map_congr_left ?_
    intro p _
    simp only [Function.comp_apply, apply_ite Prod.fst, ite_self]
  · simp

/-- An upsert preserves distinctness of the dictionary keys. -/
theorem upsert_keys_nodup (m : List (String × Workload)) (w : Workload)
    (h : (m.map Prod.fst).Nodup) : ((upsert m w).map Prod.fst).Nodup := by
  rw [upsert_keys]
  split
  · exact h
  · next hc =>
      rw [List.nodup_append]
      refine ⟨h, List.nodup_singleton _, ?_⟩
      intro x hx hs
      rcases List.mem_singleton.mp hs with rfl
      rcases List.mem_map.mp hx with ⟨p, hp, hfst⟩
      exact hc (List.any_eq_true.mpr ⟨p, hp, by simp [hfst]⟩)

/-- An upsert preserves the invariant that each entry is keyed by its
workload's name. -/
theorem upsert_named (m : List (String × Workload)) (w : Workload)
    (h : ∀ p ∈ m, p.2.name = p.1) : ∀ p ∈ upsert m w, p.2.name = p.1 := by
  unfold upsert
  split
  · intro p hp
    rcases List.mem_map.mp hp with ⟨q, hq, rfl⟩
    by_cases hb : q.1 == w.name
    · simp only [hb, if_pos]
      have : q.1 = w.name := by simpa using hb
      simp [this]
    · simp only [hb, if_neg, Bool.false_eq_true, not_false_eq_true]
      simpa using h q hq
  · intro p hp
    rcases List.mem_append.mp hp with hp | hp
    · exact h p hp
    · rcases List.mem_singleton.mp hp with rfl
      rfl

/-- The folded dictionary has distinct keys, each keyed by its workload's
name. -/
theorem foldl_upsert_inv (ws : List Workload) :
    ∀ m : List (String × Workload),
      (m.map Prod.fst).Nodup → (∀ p ∈ m, p.2.name = p.1) →
      ((ws.foldl upsert m).map Prod.fst).Nodup ∧
        (∀ p ∈ ws.foldl upsert m, p.2.name = p.1) := by
  induction ws with
  | nil => intro m h1 h2; exact ⟨h1, h2⟩
  | cons w rest ih =>
      intro m h1 h2
      exact ih (upsert m w) (upsert_keys_nodup m w h1) (upsert_named m w h2)

/-- Workload names are pairwise distinct after de-duplication by name. -/
theorem dedupByName_names_nodup (ws : List Workload) :
    ((dedupByName ws).map Workload.name).Nodup := by
  obtain ⟨h1, h2⟩ := foldl_upsert_inv ws [] (by simp) (by simp)
  unfold dedupByName
  rw [List.map_map]
  have : (ws.foldl upsert []).map (Workload.name ∘ Prod.snd) =
      (ws.foldl upsert []).map Prod.fst :=
    List.map_congr_left (fun p hp => h2 p hp)
  rw [this]
  exact h1

/-- Effects of a deploy call: the pre-install job cleanup followed by the helm
upgrade-or-install invocation, whatever the helm outcome. -/
theorem deploy_effects (helm : HelmOutcome) (mod ns environment tier : String) :
    (deploy_module_with_helm helm mod ns environment tier).2 =
      [Effect.deleteJob "data-lake-init" ns, Effect.helmInstall (ns ++ "-" ++ mod) ns] := by
  cases helm with
  | timeout => rfl
  | ran rc out err =>
      simp only [deploy_module_with_helm]
      split <;> rfl

/-- C2: on every aggregated ReplicaState with matched workloads, all three
status derivations of the code (the general kubectl branch, the
security-vault kubectl branch, and the Kubernetes-API branch) map ready = 0
with desired > 0 to failed, ready = desired > 0 to running, and
0 < ready < desired to degraded; in particular (desired 3, ready 0) is
failed, (3, 2) is degraded and (3, 3) is running, and each derivation is a
function of the (desired, ready) sums alone. -/
theorem C2_status_derivation (total ready : Nat) :
    (ready = 0 → 0 < total →
      derive_status_general total ready = "failed" ∧
      derive_status_vault total ready = "failed" ∧
      derive_status_api total ready = "failed") ∧
    (0 < ready → ready < total →
      derive_status_general total ready = "degraded" ∧
      derive_status_vault total ready = "degraded" ∧
      derive_status_api total ready = "degraded") ∧
    (ready = total → 0 < total →
      derive_status_general total ready = "running" ∧
      derive_status_vault total ready = "running" ∧
      derive_status_api total ready = "running") ∧
    (derive_status_general 3 0 = "failed" ∧ derive_status_vault 3 0 = "failed" ∧
      derive_status_api 3 0 = "failed") ∧
    (derive_status_general 3 2 = "degraded" ∧ derive_status_vault 3 2 = "degraded" ∧
      derive_status_api 3 2 = "degraded") ∧
    (derive_status_general 3 3 = "running" ∧ derive_status_vault 3 3 = "running" ∧
      derive_status_api 3 3 = "running") := by
  refine ⟨?_, ?_, ?_, ⟨rfl, rfl, rfl⟩, ⟨rfl, rfl, rfl⟩, ⟨rfl, rfl, rfl⟩⟩ <;>
    intro h1 h2 <;>
    refine ⟨?_, ?_, ?_⟩ <;>
    simp only [derive_status_general, derive_status_vault, derive_status_api] <;>
    split_ifs <;> first | rfl | (exfalso; omega)

/-- Witness for C2 at the concrete pair (desired 3, ready 2). -/
theorem C2_status_derivation_witness :
    (0 < 2 ∧ 2 < 3) ∧
    (derive_status_general 3 2 = "degraded" ∧ derive_status_vault 3 2 = "degraded" ∧
      derive_status_api 3 2 = "degraded") :=
  ⟨⟨by decide, by decide⟩, (C2_status_derivation 3 2).2.1 (by decide) (by decide)⟩

/-- C5: a workload name matched by two or more candidate label selectors
occurs at least twice in the collected name list, exactly once after the
de-duplication the aggregator applies, and its replica row enters the
aggregated ready and desired sums exactly once; on the Kubernetes-API path,
de-duplication by name likewise leaves pairwise-distinct workload names. -/
theorem C5_label_merge_dedup (found : List String) (w : String)
    (rowOf : String → List String) (ws : List Workload)
    (hw : 2 ≤ found.count w) :
    found.dedup.count w = 1 ∧
    (sum_rows (found.dedup.map rowOf)).1 =
      row_ready (rowOf w) + (sum_rows ((found.dedup.erase w).map rowOf)).1 ∧
    (sum_rows (found.dedup.map rowOf)).2 =
      row_desired (rowOf w) + (sum_rows ((found.dedup.erase w).map rowOf)).2 ∧
    ((dedupByName ws).map Workload.name).Nodup := by
  have hmem : w ∈ found := by
    by_contra hne
    rw [List.count_eq_zero_of_not_mem hne] at hw
    omega
  have hmd : w ∈ found.dedup := List.mem_dedup.mpr hmem
  have hnd : found.dedup.Nodup := found.nodup_dedup
  have hperm : found.dedup.Perm (w :: found.dedup.erase w) := List.perm_cons_erase hmd
  have hr : ((found.dedup.map rowOf).map row_ready).sum =
      (((w :: found.dedup.erase w).map rowOf).map row_ready).sum :=
    ((hperm.map rowOf).map row_ready).sum_eq
  have hd : ((found.dedup.map rowOf).map row_desired).sum =
      (((w :: found.dedup.erase w).map rowOf).map row_desired).sum :=
    ((hperm.map rowOf).map row_desired).sum_eq
  refine ⟨List.count_eq_one_of_mem hnd hmd, ?_, ?_, dedupByName_names_nodup ws⟩
  · rw [sum_rows_eq, sum_rows_eq]
    simpa [List.map_cons, List.sum_cons] using hr
  · rw [sum_rows_eq, sum_rows_eq]
    simpa [List.map_cons, List.sum_cons] using hd

/-- Witness for C5: the workload `minio` matched by two selectors, with a
replica row of two ready out of three desired, counts once. -/
theorem C5_label_merge_dedup_witness :
    2 ≤ (["minio", "minio"] : List String).count "minio" ∧
    (["minio", "minio"] : List String).dedup.count "minio" = 1 ∧
    (sum_rows ((["minio", "minio"] : List String).dedup.map (fun _ => ["2", "3"]))).2 =
      row_desired ["2", "3"] +
        (sum_rows (((["minio", "minio"] : List String).dedup.erase "minio").map
          (fun _ => ["2", "3"]))).2 :=
  ⟨by decide,
   (C5_label_merge_dedup ["minio", "minio"] "minio" (fun _ => ["2", "3"]) [] (by decide)).1,
   (C5_label_merge_dedup ["minio", "minio"] "minio" (fun _ => ["2", "3"]) [] (by decide)).2.2.1⟩

/-- C3 counterexample: a helm uninstall that exits 1 because the release does
not exist is reported as an undeployment failure, not as success, so the
claim that a release-not-found result is treated as success is false on the
code. -/
theorem C3_counterexample :
    (undeploy_module_with_helm (HelmOutcome.ran 1 "" notFoundStderr)
        "spark" "acme-dev" true false).1 =
      Except.error
        { status_code := 500,
          detail := "Undeployment failed: 500: Module undeployment failed: Error: uninstall: Release not loaded: acme-dev-spark: release: not found" } :=
  rfl

/-- C3 (amended): every non-zero exit of the release-manager uninstall,
release-not-found included, is reported as UndeploymentFailed carrying the
stderr text; only exit 0 is success; a subprocess timeout is reported with
status 408.  Idempotent disable comes solely from the controller's
not-deployed pre-check, not from the uninstall call. -/
theorem C3_uninstall_exit_classification (rc : Int) (out err mod ns : String) (p a : Bool) :
    (rc ≠ 0 →
      (undeploy_module_with_helm (HelmOutcome.ran rc out err) mod ns p a).1 =
        Except.error
          { status_code := 500,
            detail := "Undeployment failed: " ++
              str_of_http { status_code := 500,
                            detail := "Module undeployment failed: " ++ err } }) ∧
    (rc = 0 →
      (undeploy_module_with_helm (HelmOutcome.ran rc out err) mod ns p a).1 =
        Except.ok { release_name := ns ++ "-" ++ mod, nsName := ns, output := out,
                    pvcs_cleaned := p, complete_cleanup := a }) ∧
    ((undeploy_module_with_helm HelmOutcome.timeout mod ns p a).1 =
      Except.error { status_code := 408, detail := "Module undeployment timed out" }) := by
  refine ⟨?_, ?_, rfl⟩
  · intro h
    simp [undeploy_module_with_helm, h]
  · intro h
    simp [undeploy_module_with_helm, h]

/-- Witness for C3's amended statement at exit code 1 and at exit code 0. -/
theorem C3_uninstall_exit_classification_witness :
    ((1 : Int) ≠ 0 ∧
      (undeploy_module_with_helm (HelmOutcome.ran 1 "" "boom") "minio" "acme-dev" true false).1 =
        Except.error
          { status_code := 500,
            detail := "Undeployment failed: " ++
              str_of_http { status_code := 500,
                            detail := "Module undeployment failed: " ++ "boom" } }) ∧
    ((0 : Int) = 0 ∧
      (undeploy_module_with_helm (HelmOutcome.ran 0 "ok" "") "minio" "acme-dev" true false).1 =
        Except.ok { release_name := "acme-dev" ++ "-" ++ "minio", nsName := "acme-dev",
                    output := "ok", pvcs_cleaned := true, complete_cleanup := false }) :=
  ⟨⟨by decide, (C3_uninstall_exit_classification 1 "" "boom" "minio" "acme-dev" true false).1
      (by decide)⟩,
   ⟨rfl, (C3_uninstall_exit_classification 0 "ok" "" "minio" "acme-dev" true false).2.1 rfl⟩⟩

/-- C6 counterexample: at cleanup tier None (no PVC cleanup, no complete
cleanup) the code still performs the unconditional release-instance job
cleanup, so the set of cleanup actions performed at tier None is not empty. -/
theorem C6_counterexample :
    cleanup_actions false false = [CleanupAction.jobs] ∧
    cleanup_actions false false ≠ [] ∧
    (undeploy_module_with_helm (HelmOutcome.ran 0 "" "") "spark" "acme-dev" false false).2 =
      [Effect.helmUninstall "acme-dev-spark" "acme-dev",
       Effect.cleanupJobsByInstance "acme-dev-spark" "acme-dev"] :=
  ⟨rfl, by decide, rfl⟩

/-- C6 (amended): the cleanup action set is monotone in the tier — every
action of tier None is performed at tier PVCsOnly and every action of tier
PVCsOnly is performed at tier Full — but tier None's set is not empty: it is
exactly the unconditional job cleanup. -/
theorem C6_cleanup_tier_monotonicity (a : CleanupAction) :
    (a ∈ cleanup_actions false false → a ∈ cleanup_actions true false) ∧
    (a ∈ cleanup_actions true false → a ∈ cleanup_actions true true) ∧
    cleanup_actions false false = [CleanupAction.jobs] := by
  refine ⟨?_, ?_, rfl⟩
  · intro h
    have ha : a = CleanupAction.jobs := by simpa [cleanup_actions] using h
    subst ha
    simp [cleanup_actions]
  · intro h
    have ha : a = CleanupAction.pvcs ∨ a = CleanupAction.jobs := by
      simpa [cleanup_actions] using h
    rcases ha with rfl | rfl <;> simp [cleanup_actions, common_crds]

/-- Witness for C6's amended statement: the job cleanup action of tier None
is performed at every tier. -/
theorem C6_cleanup_tier_monotonicity_witness :
    CleanupAction.jobs ∈ cleanup_actions false false ∧
    CleanupAction.jobs ∈ cleanup_actions true false ∧
    CleanupAction.jobs ∈ cleanup_actions true true :=
  ⟨by decide,
   (C6_cleanup_tier_monotonicity CleanupAction.jobs).1 (by decide),
   (C6_cleanup_tier_monotonicity CleanupAction.jobs).2.1
     ((C6_cleanup_tier_monotonicity CleanupAction.jobs).1 (by decide))⟩

/-- C7: an install invocation whose release-manager subprocess times out is
reported with status 408 (DeploymentTimedOut); any other non-zero exit is
reported with status 500 (DeploymentFailed) whose detail carries the
release manager's stderr verbatim as a suffix; exit 0 is success. -/
theorem C7_install_failure_classification (rc : Int) (out err mod ns environment tier : String) :
    ((deploy_module_with_helm HelmOutcome.timeout mod ns environment tier).1 =
      Except.error { status_code := 408, detail := "Module deployment timed out" }) ∧
    (rc ≠ 0 →
      (deploy_module_with_helm (HelmOutcome.ran rc out err) mod ns environment tier).1 =
        Except.error
          { status_code := 500,
            detail := "Deployment failed: " ++
              str_of_http { status_code := 500,
                            detail := "Module deployment failed: " ++ err } } ∧
      ∃ p, "Deployment failed: " ++
            str_of_http { status_code := 500,
                          detail := "Module deployment failed: " ++ err } = p ++ err) ∧
    (rc = 0 →
      (deploy_module_with_helm (HelmOutcome.ran rc out err) mod ns environment tier).1 =
        Except.ok { release_name := ns ++ "-" ++ mod, nsName := ns, output := out }) := by
  refine ⟨rfl, ?_, ?_⟩
  · intro h
    refine ⟨by simp [deploy_module_with_helm, h], ?_⟩
    refine ⟨"Deployment failed: " ++ (toString (500 : Nat) ++ ": " ++ "Module deployment failed: "), ?_⟩
    simp only [str_of_http, String.append_assoc]
  · intro h
    simp [deploy_module_with_helm, h]

/-- Witness for C7 at exit code 1 with a concrete diagnostic. -/
theorem C7_install_failure_classification_witness :
    ((1 : Int) ≠ 0) ∧
    ((deploy_module_with_helm (HelmOutcome.ran 1 "" "chart error") "spark" "acme-dev" "dev" "bronze").1 =
      Except.error
        { status_code := 500,
          detail := "Deployment failed: " ++
            str_of_http { status_code := 500,
                          detail := "Module deployment failed: " ++ "chart error" } } ∧
     ∃ p, "Deployment failed: " ++
           str_of_http { status_code := 500,
                         detail := "Module deployment failed: " ++ "chart error" } =
         p ++ "chart error") :=
  ⟨by decide,
   (C7_install_failure_classification 1 "" "chart error" "spark" "acme-dev" "dev" "bronze").2.1
     (by decide)⟩

/-- C1: when the pre-check reports the module deployed and running, the
enable operation returns success immediately, performs no effect at all (in
particular no release-manager install), and reports exactly the pre-check
status — so a second Enable right after a successful one installs nothing and
returns the same status. -/
theorem C1_idempotent_enable (pre_c : Cluster) (pre_api : ApiCluster)
    (post_c : Cluster) (post_api : ApiCluster) (helm : HelmOutcome)
    (available_modules : List String) (tenant mod environment tier : String)
    (hmod : mod ∈ available_modules)
    (hdep : (is_module_deployed pre_c pre_api (tenant ++ "-" ++ environment) mod).deployed = true)
    (hrun : (is_module_deployed pre_c pre_api (tenant ++ "-" ++ environment) mod).status
              = "running") :
    enable_module pre_c pre_api post_c post_api helm available_modules
        tenant mod environment tier =
      (Except.ok
        { message := "Module '" ++ mod ++ "' is already running",
          deployment := none,
          status := is_module_deployed pre_c pre_api (tenant ++ "-" ++ environment) mod,
          nsName := tenant ++ "-" ++ environment }, []) := by
  unfold enable_module
  rw [if_neg (not_not_intro hmod), if_pos ⟨hdep, hrun⟩]

/-- Witness for C1 on a cluster state where every query finds the module
running. -/
theorem C1_idempotent_enable_witness :
    ("minio" ∈ ["minio"] ∧
     (is_module_deployed clusterRunning apiNone "acme-dev" "minio").deployed = true ∧
     (is_module_deployed clusterRunning apiNone "acme-dev" "minio").status = "running") ∧
    enable_module clusterRunning apiNone clusterRunning apiNone (HelmOutcome.ran 0 "" "")
        ["minio"] "acme" "minio" "dev" "bronze" =
      (Except.ok
        { message := "Module 'minio' is already running",
          deployment := none,
          status := is_module_deployed clusterRunning apiNone "acme-dev" "minio",
          nsName := "acme-dev" }, []) :=
  ⟨⟨List.mem_singleton.mpr rfl, rfl, rfl⟩,
   C1_idempotent_enable clusterRunning apiNone clusterRunning apiNone (HelmOutcome.ran 0 "" "")
     ["minio"] "acme" "minio" "dev" "bronze" (List.mem_singleton.mpr rfl) rfl rfl⟩

/-- C8: when the pre-check reports the module not deployed, the disable
operation returns success immediately and performs no effect at all — no
release-manager uninstall and no cleanup action. -/
theorem C8_idempotent_disable (pre_c : Cluster) (pre_api : ApiCluster)
    (post_c : Cluster) (post_api : ApiCluster) (helm : HelmOutcome)
    (tenant mod environment : String) (cleanup_pvcs cleanup_all : Bool)
    (hdep : (is_module_deployed pre_c pre_api (tenant ++ "-" ++ environment) mod).deployed = false)
    (hst : (is_module_deployed pre_c pre_api (tenant ++ "-" ++ environment) mod).status
             = "not_deployed") :
    disable_module pre_c pre_api post_c post_api helm tenant mod environment
        cleanup_pvcs cleanup_all =
      (Except.ok
        { message := "Module '" ++ mod ++ "' is already not deployed",
          undeploy := none, status := none,
          nsName := tenant ++ "-" ++ environment,
          resource_cleanup_performed := false }, []) := by
  unfold disable_module
  rw [if_pos hdep]

/-- Witness for C8 on a cluster state where every query succeeds with zero
matches. -/
theorem C8_idempotent_disable_witness :
    ((is_module_deployed clusterEmpty apiNone "acme-dev" "minio").deployed = false ∧
     (is_module_deployed clusterEmpty apiNone "acme-dev" "minio").status = "not_deployed") ∧
    disable_module clusterEmpty apiNone clusterEmpty apiNone (HelmOutcome.ran 0 "" "")
        "acme" "minio" "dev" true false =
      (Except.ok
        { message := "Module 'minio' is already not deployed",
          undeploy := none, status := none,
          nsName := "acme-dev",
          resource_cleanup_performed := false }, []) :=
  ⟨⟨rfl, rfl⟩,
   C8_idempotent_disable clusterEmpty apiNone clusterEmpty apiNone (HelmOutcome.ran 0 "" "")
     "acme" "minio" "dev" true false rfl rfl⟩

/-- C9: when the pre-check status is degraded, failed or not-deployed, the
enable operation proceeds to the release manager's upgrade-or-install — the
install effect is always issued, whatever the install outcome, and the prior
unhealthy state is not treated as an error. -/
theorem C9_enable_on_unhealthy (pre_c : Cluster) (pre_api : ApiCluster)
    (post_c : Cluster) (post_api : ApiCluster) (helm : HelmOutcome)
    (available_modules : List String) (tenant mod environment tier : String)
    (hmod : mod ∈ available_modules)
    (hst : (is_module_deployed pre_c pre_api (tenant ++ "-" ++ environment) mod).status
             = "degraded" ∨
           (is_module_deployed pre_c pre_api (tenant ++ "-" ++ environment) mod).status
             = "failed" ∨
           (is_module_deployed pre_c pre_api (tenant ++ "-" ++ environment) mod).status
             = "not_deployed") :
    Effect.helmInstall ((tenant ++ "-" ++ environment) ++ "-" ++ mod)
        (tenant ++ "-" ++ environment)
      ∈ (enable_module pre_c pre_api post_c post_api helm available_modules
           tenant mod environment tier).2 := by
  have hne : ¬((is_module_deployed pre_c pre_api (tenant ++ "-" ++ environment) mod).deployed = true
      ∧ (is_module_deployed pre_c pre_api (tenant ++ "-" ++ environment) mod).status = "running") := by
    rcases hst with h | h | h <;>
      exact fun hc => absurd (h.symm.trans hc.2) (by decide)
  unfold enable_module
  rw [if_neg (not_not_intro hmod), if_neg hne]
  have he := deploy_effects helm mod (tenant ++ "-" ++ environment) environment tier
  rcases hd : deploy_module_with_helm helm mod (tenant ++ "-" ++ environment) environment tier
    with ⟨res, effs⟩
  rw [hd] at he
  simp only [Prod.snd] at he
  cases res <;> simp [he]

/-- Witness for C9 on a cluster state where the module is degraded (one of
three replicas ready per workload). -/
theorem C9_enable_on_unhealthy_witness :
    ("minio" ∈ ["minio"] ∧
     (is_module_deployed clusterDegraded apiNone "acme-dev" "minio").status = "degraded") ∧
    Effect.helmInstall "acme-dev-minio" "acme-dev"
      ∈ (enable_module clusterDegraded apiNone clusterDegraded apiNone (HelmOutcome.ran 0 "" "")
           ["minio"] "acme" "minio" "dev" "bronze").2 :=
  ⟨⟨List.mem_singleton.mpr rfl, rfl⟩,
   C9_enable_on_unhealthy clusterDegraded apiNone clusterDegraded apiNone (HelmOutcome.ran 0 "" "")
     ["minio"] "acme" "minio" "dev" "bronze" (List.mem_singleton.mpr rfl) (Or.inl rfl)⟩

/-- C4 counterexample: on a cluster where every kubectl call errors with a
non-zero exit code (API server unreachable), the status query reports
not-deployed with no error attached — not the claimed Unknown-with-error —
both at the kubectl layer and through the consolidated query. -/
theorem C4_counterexample :
    is_module_deployed_via_kubectl clusterOffline "acme-dev" "spark" = notDeployedStatus ∧
    is_module_deployed clusterOffline apiNone "acme-dev" "spark" = notDeployedStatus ∧
    notDeployedStatus.status = "not_deployed" ∧
    notDeployedStatus.error = none :=
  ⟨rfl, rfl, rfl, rfl⟩

/-- C4 (amended): a status query during which a kubectl subprocess raises an
exception yields Unknown with the error attached, and a query that completes
with zero matched workloads yields NotDeployed; the two outcomes are
distinct.  A kubectl call that merely exits non-zero, however, is treated as
zero matches, not as an error. -/
theorem C4_query_failure_vs_empty (c : Cluster) (ns mod e : String) :
    (collect_found c ns mod = Except.error e →
      is_module_deployed_via_kubectl c ns mod = unknownStatus e) ∧
    (collect_found c ns mod = Except.ok ([], []) →
      is_module_deployed_via_kubectl c ns mod = notDeployedStatus) ∧
    unknownStatus e ≠ notDeployedStatus ∧
    (unknownStatus e).status = "unknown" ∧
    (unknownStatus e).error = some e := by
  refine ⟨?_, ?_, ?_, rfl, rfl⟩
  · intro h
    simp [is_module_deployed_via_kubectl, kubectl_classify, h]
  · intro h
    simp [is_module_deployed_via_kubectl, kubectl_classify, h, kubectl_after_collect]
  · intro hc
    have : "unknown" = "not_deployed" := congrArg DeployStatus.status hc
    exact absurd this (by decide)

/-- Witness for C4's amended statement: a raising cluster yields Unknown with
the error attached; an empty cluster yields NotDeployed. -/
theorem C4_query_failure_vs_empty_witness :
    (collect_found clusterExn "acme-dev" "spark" = Except.error "Command timed out" ∧
     is_module_deployed_via_kubectl clusterExn "acme-dev" "spark" =
       unknownStatus "Command timed out") ∧
    (collect_found clusterEmpty "acme-dev" "spark" = Except.ok ([], []) ∧
     is_module_deployed_via_kubectl clusterEmpty "acme-dev" "spark" = notDeployedStatus) :=
  ⟨⟨rfl, (C4_query_failure_vs_empty clusterExn "acme-dev" "spark" "Command timed out").1 rfl⟩,
   ⟨rfl, (C4_query_failure_vs_empty clusterEmpty "acme-dev" "spark" "Command timed out").2.1 rfl⟩⟩

/-- C10: the public disable endpoint defaults to destructive PVC cleanup —
`cleanup_pvcs` defaults to true and `cleanup_all` to false, and on a deployed
module whose uninstall succeeds, a disable call with the default options
performs the PersistentVolumeClaim deletion whose victim pattern is the
module name together with the fixed co-resident names vault, minio, dremio,
spark and kafka. -/
theorem C10_default_destructive_cleanup (pre_c : Cluster) (pre_api : ApiCluster)
    (post_c : Cluster) (post_api : ApiCluster) (out err : String)
    (tenant mod environment : String)
    (hdep : (is_module_deployed pre_c pre_api (tenant ++ "-" ++ environment) mod).deployed
              = true) :
    disable_default_cleanup_pvcs = true ∧
    disable_default_cleanup_all = false ∧
    module_patterns mod = [mod, "vault", "minio", "dremio", "spark", "kafka"] ∧
    Effect.cleanupPattern CleanupAction.pvcs (module_patterns mod)
        (tenant ++ "-" ++ environment)
      ∈ (disable_module pre_c pre_api post_c post_api (HelmOutcome.ran 0 out err)
           tenant mod environment disable_default_cleanup_pvcs
           disable_default_cleanup_all).2 := by
  refine ⟨rfl, rfl, rfl, ?_⟩
  unfold disable_module
  rw [if_neg (by simp [hdep])]
  simp [undeploy_module_with_helm, disable_default_cleanup_pvcs, disable_default_cleanup_all,
    cleanup_actions, effect_of_action]

/-- Witness for C10 on a cluster state where the module is deployed and
running. -/
theorem C10_default_destructive_cleanup_witness :
    (is_module_deployed clusterRunning apiNone "acme-dev" "minio").deployed = true ∧
    Effect.cleanupPattern CleanupAction.pvcs (module_patterns "minio") "acme-dev"
      ∈ (disable_module clusterRunning apiNone clusterRunning apiNone (HelmOutcome.ran 0 "" "")
           "acme" "minio" "dev" disable_default_cleanup_pvcs disable_default_cleanup_all).2 :=
  ⟨rfl,
   (C10_default_destructive_cleanup clusterRunning apiNone clusterRunning apiNone "" ""
     "acme" "minio" "dev" rfl).2.2.2⟩
